import Mathlib

/-!
Shallow embedding of the picow firmware (src/main.rs): the Prometheus
metrics responder, the shared ADC gauge cell, the sensor sampling task,
and the network bring-up sequence in `main`.  Machine integers are
modelled as `Nat` with explicit bounds (the gauge is a `u16`), byte
strings as `List Nat` of ASCII codes, and the cooperative tasks as
explicit traces of events.
-/

namespace Picow

/-- Byte view of a Rust `&str` (`str::as_bytes`).  Every string constant in
the program is ASCII, so one character is one byte and `Char.toNat` is the
byte value. -/
def asBytes (s : String) : List Nat := s.data.map Char.toNat

/-- The static exposition header (`HEADER` in main.rs). -/
def HEADER : String :=
  "# HELP adc_value The value read from the ADC\n# TYPE adc_value gauge\n"

/-- The static metric-name/label strings (`METRICS` in main.rs). -/
def METRICS : List String := ["adc_value\x7bsensor=\"MQ-2\"\x7d "]

/-- Decimal digits of `n`, least significant first, computed with explicit
fuel so that it reduces structurally.  Models the digit loop of Rust
integer `Display`. -/
def decDigitsAux : Nat → Nat → List Nat
  | _, 0 => []
  | 0, _ + 1 => []
  | fuel + 1, n + 1 => ((n + 1) % 10) :: decDigitsAux fuel ((n + 1) / 10)

/-- Decimal digits of `n`, least significant first (`n` itself is enough
fuel since the argument strictly decreases). -/
def decDigits (n : Nat) : List Nat := decDigitsAux n n

/-- Decimal rendering of a natural number, most significant digit first:
the embedding of Rust `Display` for unsigned integers. -/
def decimalString (n : Nat) : String :=
  if n = 0 then "0"
  else String.mk ((decDigits n).reverse.map (fun d => Char.ofNat (48 + d)))

/-- Rust `format!("\x7b:05\x7d", n)`: left-pad the decimal rendering with
zeros to a minimum width of 5. -/
def format05 (n : Nat) : String :=
  let s := decimalString n
  String.mk (List.replicate (5 - s.length) (Char.ofNat 48)) ++ s

/-- `Prometheus::content_length`: length of the header, plus the sum of
the metric-label lengths, plus 5 bytes for the padded value. -/
def content_length : Nat :=
  (asBytes HEADER).length + (METRICS.map (fun m => (asBytes m).length)).sum + 5

/-- `Prometheus::write_content` with the gauge holding `adc_value`: the
bytes actually streamed — header, then each metric label, then the
zero-padded 5-digit decimal rendering of the value. -/
def write_content (adc_value : Nat) : List Nat :=
  asBytes HEADER ++ (METRICS.map asBytes).flatten ++ asBytes (format05 adc_value)

/-- The `heapless::String::<32>` scratch buffer write in `write_content`:
`write!` succeeds (returns `Ok`, so the `unwrap` does not panic) exactly
when the rendered bytes fit in the 32-byte capacity. -/
def heaplessWriteResult (cap : Nat) (s : String) : Option Unit :=
  if (asBytes s).length ≤ cap then some () else none

/-! The sensor sampling task (`read_sensor` in main.rs). -/

instance {ε α : Type} [DecidableEq ε] [DecidableEq α] :
    DecidableEq (Except ε α)
  | .ok a, .ok b =>
      if h : a = b then .isTrue (by rw [h]) else .isFalse (by simp [h])
  | .ok _, .error _ => .isFalse (by simp)
  | .error _, .ok _ => .isFalse (by simp)
  | .error a, .error b =>
      if h : a = b then .isTrue (by rw [h]) else .isFalse (by simp [h])

/-- Observable events of one `read_sensor` loop body: the awaited ADC
acquisition, the atomic store into `ADC_VALUE`, the `defmt::warn!` log,
and the `Timer::after` sleep (in seconds). -/
inductive SensorEvent
  | adcRead (result : Except Unit Nat)
  | storeGauge (v : Nat)
  | warnLog
  | timerAfter (secs : Nat)
deriving DecidableEq

/-- One iteration of the `read_sensor` loop, given the outcome of
`adc.read` and the current gauge value: on `Ok(value)` the value is
stored (as a `u16`), on `Err(_)` a warning is logged and the gauge is
untouched; either way the iteration ends with `Timer::after(2s)`.
Returns the gauge value after the iteration and the event trace. -/
def read_sensor_iter (result : Except Unit Nat) (gauge : Nat) :
    Nat × List SensorEvent :=
  match result with
  | .ok value =>
      (value % 65536,
       [.adcRead result, .storeGauge (value % 65536), .timerAfter 2])
  | .error _ =>
      (gauge, [.adcRead result, .warnLog, .timerAfter 2])

/-- The `read_sensor` loop run over a finite list of acquisition
outcomes, threading the gauge value through the iterations. -/
def read_sensor_run (results : List (Except Unit Nat)) (gauge : Nat) :
    Nat × List SensorEvent :=
  match results with
  | [] => (gauge, [])
  | r :: rest =>
      let step := read_sensor_iter r gauge
      let next := read_sensor_run rest step.1
      (next.1, step.2 ++ next.2)

/-- Recognizer for acquisition events. -/
def isAdcRead : SensorEvent → Bool
  | .adcRead _ => true
  | _ => false

/-! The network bring-up sequence (`main` in main.rs). -/

/-- The `WEB_TASK_POOL_SIZE` constant. -/
def WEB_TASK_POOL_SIZE : Nat := 8

/-- Observable events of `main` after the drivers are initialized:
join attempts (`control.join`, with the outcome), the two log lines of
the join loop, fixed delays, the `is_config_up` polls and their log
line, the `web_task` spawns, the final log line and the LED indicator
(`control.gpio_set(0, true)`). -/
inductive BootEvent
  | spawnSensorTask
  | spawnWifiTask
  | spawnNetTask
  | joinAttempt (ok : Bool)
  | logConnected
  | logJoinFailed
  | delaySecs (n : Nat)
  | configPoll (up : Bool)
  | logWaitingConfig
  | spawnWebTask (id : Nat)
  | logStartingServer
  | ledOn
deriving DecidableEq

/-- The `loop \x7b match control.join(..) \x7d` in `main`, given the
outcome of each successive join attempt: `Ok` logs and breaks, `Err`
logs and sleeps 1 second before retrying.  Returns `none` when the
outcome list is exhausted before any success. -/
def joinLoopTrace : List Bool → Option (List BootEvent)
  | [] => none
  | true :: _ => some [.joinAttempt true, .logConnected]
  | false :: rest =>
      (joinLoopTrace rest).map
        (fun t => .joinAttempt false :: .logJoinFailed :: .delaySecs 1 :: t)

/-- The `while !stack.is_config_up()` loop in `main`, given the outcome
of each successive poll: an up poll exits, a down poll logs and sleeps
1 second.  Returns `none` when the poll list is exhausted before the
configuration comes up. -/
def configLoopTrace : List Bool → Option (List BootEvent)
  | [] => none
  | true :: _ => some [.configPoll true]
  | false :: rest =>
      (configLoopTrace rest).map
        (fun t => .configPoll false :: .logWaitingConfig :: .delaySecs 1 :: t)

/-- The event trace of `main` after peripheral setup: spawn the sensor,
wifi and net tasks, run the join loop, run the configuration wait loop,
log, spawn the `WEB_TASK_POOL_SIZE` web tasks, then turn the LED on. -/
def mainTrace (joinResults configPolls : List Bool) :
    Option (List BootEvent) :=
  match joinLoopTrace joinResults with
  | none => none
  | some jt =>
      match configLoopTrace configPolls with
      | none => none
      | some ct =>
          some ([.spawnSensorTask, .spawnWifiTask, .spawnNetTask]
                ++ jt ++ ct ++ [.logStartingServer]
                ++ (List.range WEB_TASK_POOL_SIZE).map BootEvent.spawnWebTask
                ++ [.ledOn])

/-- Recognizer for join-attempt events. -/
def isJoinAttempt : BootEvent → Bool
  | .joinAttempt _ => true
  | _ => false

/-- One step of the bring-up ordering check.  The state records whether
a successful join attempt has occurred, whether a successful
configuration poll has occurred, and how many web tasks have been
spawned.  A web-task spawn is rejected unless both loops have already
succeeded, and the LED indicator is rejected unless the whole pool has
been spawned. -/
def orderStep (s : Bool × Bool × Nat) (e : BootEvent) :
    Option (Bool × Bool × Nat) :=
  match s, e with
  | (sj, sc, n), .joinAttempt ok => some (sj || ok, sc, n)
  | (sj, sc, n), .configPoll up => some (sj, sc || up, n)
  | (sj, sc, n), .spawnWebTask _ =>
      if sj && sc then some (sj, sc, n + 1) else none
  | (sj, sc, n), .ledOn =>
      if n == WEB_TASK_POOL_SIZE then some (sj, sc, n) else none
  | s, _ => some s

/-- The bring-up ordering check over a whole trace: `none` as soon as
some event violates the ordering, otherwise the final state. -/
def orderScan (s : Bool × Bool × Nat) : List BootEvent → Option (Bool × Bool × Nat)
  | [] => some s
  | e :: rest =>
      match orderStep s e with
      | none => none
      | some s2 => orderScan s2 rest

/-! The shared gauge cell (`ADC_VALUE : AtomicU16`) under arbitrary task
interleavings. -/

/-- The tasks of the program: the sensor sampling task, the web worker
pool tasks, the main task, and the two driver tasks. -/
inductive TaskId
  | sensorTask
  | webTask (id : Nat)
  | mainTask
  | wifiDriverTask
  | netDriverTask
deriving DecidableEq

/-- A single scheduler step, as far as the gauge cell is concerned: an
atomic store (`AtomicU16::store`), an atomic load (`AtomicU16::load`),
or any step not touching the cell. -/
inductive GaugeOp
  | store (v : Nat)
  | load
  | tau
deriving DecidableEq

/-- Which gauge operations each task can perform, read off from the
source: `read_sensor` is the only task containing a store (of a `u16`
value) and never loads; `write_content`, run by web tasks, contains the
only load; no other task touches `ADC_VALUE`. -/
def taskMayPerform : TaskId → GaugeOp → Bool
  | .sensorTask, .store v => decide (v < 65536)
  | .sensorTask, .load => false
  | .sensorTask, .tau => true
  | .webTask _, .store _ => false
  | .webTask _, .load => true
  | .webTask _, .tau => true
  | .mainTask, .tau => true
  | .mainTask, _ => false
  | .wifiDriverTask, .tau => true
  | .wifiDriverTask, _ => false
  | .netDriverTask, .tau => true
  | .netDriverTask, _ => false

/-- An interleaving of the tasks: a list of steps, each attributed to a
task, where every step is one its task can actually perform. -/
def wellFormed (tr : List (TaskId × GaugeOp)) : Bool :=
  tr.all fun s => taskMayPerform s.1 s.2

/-- The gauge cell value after executing a trace, starting from the
initial `AtomicU16::new(0)`. -/
def gaugeAfter (tr : List (TaskId × GaugeOp)) : Nat :=
  tr.foldl (fun g s => match s.2 with | .store v => v | _ => g) 0

/-! The build-time credential handling (`core::option_env!` plus
`unwrap` at the join call in `main`). -/

/-- Outcome of compiling the program in an environment where the two
credential variables may or may not be set: `option_env!` expands to
`Some`/`None` either way and the build always succeeds. -/
inductive BuildOutcome
  | buildOk
deriving DecidableEq

/-- The build step: `core::option_env!("WIFI_NETWORK")` and
`core::option_env!("WIFI_PASSWORD")` compile whether or not the
variables are present, so the build succeeds for every environment. -/
def buildWith (network password : Option String) : BuildOutcome :=
  match network, password with
  | _, _ => .buildOk

/-- A runtime panic, as produced by `Option::unwrap` on `None`. -/
inductive RtPanic
  | unwrapNone
deriving DecidableEq

/-- The credential evaluation performed at run time by the join call:
`option_env!("WIFI_NETWORK").unwrap()` and
`option_env!("WIFI_PASSWORD").unwrap()` — panics when either is absent. -/
def joinCredentials (network password : Option String) :
    Except RtPanic (String × String) :=
  match network, password with
  | some n, some p => .ok (n, p)
  | _, _ => .error .unwrapNone

/-! Helper lemmas. -/

theorem decDigitsAux_length_le :
    ∀ (fuel n k : Nat), n ≤ fuel → n < 10 ^ k →
      (decDigitsAux fuel n).length ≤ k := by
  intro fuel
  induction fuel with
  | zero =>
      intro n k hn _
      cases n with
      | zero => simp [decDigitsAux]
      | succ m => omega
  | succ f ih =>
      intro n k hn hk
      cases n with
      | zero => simp [decDigitsAux]
      | succ m =>
          cases k with
          | zero => simp at hk
          | succ k2 =>
              simp only [decDigitsAux, List.length_cons]
              have hdivf : (m + 1) / 10 ≤ f := by
                have hlt : (m + 1) / 10 < m + 1 :=
                  Nat.div_lt_self (Nat.succ_pos m) (by omega)
                omega
              have hdivk : (m + 1) / 10 < 10 ^ k2 := by
                apply Nat.div_lt_of_lt_mul
                have : (10 : Nat) ^ (k2 + 1) = 10 * 10 ^ k2 := by
                  rw [pow_succ, Nat.mul_comm]
                omega
              have := ih ((m + 1) / 10) k2 hdivf hdivk
              omega

theorem decimalString_length_le (n : Nat) (h : n < 100000) :
    (decimalString n).length ≤ 5 := by
  unfold decimalString
  split
  · decide
  · show ((decDigits n).reverse.map (fun d => Char.ofNat (48 + d))).length ≤ 5
    rw [List.length_map, List.length_reverse]
    exact decDigitsAux_length_le n n 5 le_rfl (by norm_num; omega)

theorem format05_length (n : Nat) (h : n < 100000) :
    (format05 n).length = 5 := by
  have hL := decimalString_length_le n h
  unfold format05
  rw [String.length_append]
  show (List.replicate (5 - (decimalString n).length) (Char.ofNat 48)).length
        + (decimalString n).length = 5
  rw [List.length_replicate]
  omega

theorem asBytes_length (s : String) : (asBytes s).length = s.length := by
  simp [asBytes]

/-- C1: for every value the `AtomicU16` gauge cell can hold, the
declared `content_length` equals the exact number of bytes streamed by
`write_content`: the static header bytes, the static metric-label
bytes, and the zero-padded 5-digit decimal rendering of the value. -/
theorem C1_content_length_exact (v : Nat) (h : v < 65536) :
    (write_content v).length = content_length := by
  have h5 : (format05 v).length = 5 := format05_length v (by omega)
  have hfmt : (asBytes (format05 v)).length = 5 := by
    rw [asBytes_length, h5]
  have hH : (asBytes HEADER).length = 68 := by decide
  have hM : ((METRICS.map asBytes).flatten).length = 25 := by decide
  have hMsum : (METRICS.map (fun m => (asBytes m).length)).sum = 25 := by
    decide
  simp [write_content, content_length, hH, hM, hMsum, hfmt]

theorem C1_content_length_exact_witness :
    7 < 65536 ∧ (write_content 7).length = content_length :=
  ⟨by decide, C1_content_length_exact 7 (by decide)⟩

/-- C6: with the gauge holding 7, the body streamed for `GET /metrics`
is exactly the header, the label and `00007`, with no trailing newline
after the value, and the declared content length matches this body. -/
theorem C6_metrics_body_for_seven :
    write_content 7
      = asBytes ("# HELP adc_value The value read from the ADC\n# TYPE adc_value gauge\nadc_value\x7bsensor=\"MQ-2\"\x7d 00007")
    ∧ (write_content 7).getLast? ≠ some 10
    ∧ content_length = (write_content 7).length := by
  decide

/-- C10: for every `u16` value the gauge can hold, the zero-padded
decimal rendering is exactly 5 characters, so the `write!` into the
32-byte `heapless::String` scratch buffer succeeds and the `unwrap`
cannot panic. -/
theorem C10_format_never_panics (v : Nat) (h : v < 65536) :
    (format05 v).length = 5
    ∧ heaplessWriteResult 32 (format05 v) = some () := by
  have h5 : (format05 v).length = 5 := format05_length v (by omega)
  refine ⟨h5, ?_⟩
  unfold heaplessWriteResult
  rw [asBytes_length, h5]
  simp

theorem C10_format_never_panics_witness :
    65535 < 65536
    ∧ ((format05 65535).length = 5
       ∧ heaplessWriteResult 32 (format05 65535) = some ()) :=
  ⟨by decide, C10_format_never_panics 65535 (by decide)⟩

/-- C8, counterexample to the claim as stated: with both credential
variables absent the build still succeeds (`option_env!` never fails
the build) and the absence does manifest as a runtime failure — the
`unwrap` at the join call panics. -/
theorem C8_counterexample :
    ¬ (buildWith none none ≠ BuildOutcome.buildOk
       ∧ joinCredentials none none ≠ Except.error RtPanic.unwrapNone) := by
  decide

/-- C8, amended: if either credential variable is absent at build time,
the build nevertheless succeeds, and the program instead panics at run
time (`Option::unwrap` on `None`) when the join call evaluates the
credentials. -/
theorem C8_missing_credentials_panic_at_runtime
    (network password : Option String)
    (h : network = none ∨ password = none) :
    buildWith network password = BuildOutcome.buildOk
    ∧ joinCredentials network password = Except.error RtPanic.unwrapNone := by
  rcases h with rfl | rfl
  · exact ⟨rfl, by cases password <;> rfl⟩
  · exact ⟨rfl, by cases network <;> rfl⟩

theorem C8_missing_credentials_panic_at_runtime_witness :
    ((none : Option String) = none ∨ (none : Option String) = none)
    ∧ (buildWith none none = BuildOutcome.buildOk
       ∧ joinCredentials none none = Except.error RtPanic.unwrapNone) :=
  ⟨Or.inl rfl,
   C8_missing_credentials_panic_at_runtime none none (Or.inl rfl)⟩

/-- C4: when an acquisition yields an error, the iteration leaves the
gauge unchanged (so any later read returns the same value as one before
the failed attempt), logs a warning, and the sampling loop continues
with the remaining acquisitions. -/
theorem C4_sensor_error_leaves_gauge (e : Unit) (g : Nat)
    (rest : List (Except Unit Nat)) :
    (read_sensor_iter (Except.error e) g).1 = g
    ∧ SensorEvent.warnLog ∈ (read_sensor_iter (Except.error e) g).2
    ∧ read_sensor_run (Except.error e :: rest) g
        = ((read_sensor_run rest g).1,
           [SensorEvent.adcRead (Except.error e), SensorEvent.warnLog,
            SensorEvent.timerAfter 2] ++ (read_sensor_run rest g).2) := by
  refine ⟨rfl, by simp [read_sensor_iter], ?_⟩
  simp [read_sensor_run, read_sensor_iter]

/-- C9: every iteration of the sampling loop — success or failure —
ends with a fixed `Timer::after(2s)` suspension, performs exactly one
acquisition (so a failure never retries immediately), and every timer
event the loop ever emits has the fixed 2-second interval. -/
theorem C9_sensor_fixed_interval :
    (∀ (r : Except Unit Nat) (g : Nat),
        (read_sensor_iter r g).2.getLast? = some (SensorEvent.timerAfter 2)
        ∧ ((read_sensor_iter r g).2.filter isAdcRead).length = 1)
    ∧ ∀ (results : List (Except Unit Nat)) (g : Nat),
        ((read_sensor_run results g).2.all
          (fun e => match e with
                    | SensorEvent.timerAfter s => s == 2
                    | _ => true)) = true := by
  constructor
  · intro r g
    cases r <;> simp [read_sensor_iter, isAdcRead]
  · intro results
    induction results with
    | nil => intro g; simp [read_sensor_run]
    | cons r rest ih =>
        intro g
        cases r <;> simp [read_sensor_run, read_sensor_iter, ih]

theorem joinLoopTrace_replicate (N : Nat) :
    joinLoopTrace (List.replicate N false ++ [true])
      = some ((List.replicate N
                [BootEvent.joinAttempt false, BootEvent.logJoinFailed,
                 BootEvent.delaySecs 1]).flatten
              ++ [BootEvent.joinAttempt true, BootEvent.logConnected]) := by
  induction N with
  | zero => rfl
  | succ n ih => simp [List.replicate_succ, joinLoopTrace, ih]

/-- C2: after N consecutive join failures followed by a success, the
join loop of `main` performs exactly N+1 attempts, emits a fixed
1-second delay after each failure, and the trace ends at the successful
attempt — for every N, so there is no maximum retry count. -/
theorem C2_join_retry (N : Nat) :
    joinLoopTrace (List.replicate N false ++ [true])
      = some ((List.replicate N
                [BootEvent.joinAttempt false, BootEvent.logJoinFailed,
                 BootEvent.delaySecs 1]).flatten
              ++ [BootEvent.joinAttempt true, BootEvent.logConnected])
    ∧ (((List.replicate N
          [BootEvent.joinAttempt false, BootEvent.logJoinFailed,
           BootEvent.delaySecs 1]).flatten
        ++ [BootEvent.joinAttempt true, BootEvent.logConnected]).filter
          isJoinAttempt).length = N + 1 := by
  refine ⟨joinLoopTrace_replicate N, ?_⟩
  induction N with
  | zero => decide
  | succ n ih =>
      simp only [List.replicate_succ, List.flatten_cons, List.append_assoc,
        List.filter_append, List.length_append] at ih ⊢
      simp [isJoinAttempt] at ih ⊢
      omega

/-- C7: in every well-formed interleaving of the tasks, every store to
the shared gauge cell is performed by the sensor sampling task; all
other tasks only load. -/
theorem C7_single_writer (tr : List (TaskId × GaugeOp))
    (h : wellFormed tr = true) :
    ∀ t v, (t, GaugeOp.store v) ∈ tr → t = TaskId.sensorTask := by
  intro t v hmem
  simp only [wellFormed, List.all_eq_true] at h
  have hstep := h _ hmem
  cases t <;> simp [taskMayPerform] at hstep ⊢

theorem C7_single_writer_witness :
    wellFormed [(TaskId.sensorTask, GaugeOp.store 5),
                (TaskId.webTask 0, GaugeOp.load)] = true
    ∧ TaskId.sensorTask = TaskId.sensorTask :=
  ⟨by decide,
   C7_single_writer [(TaskId.sensorTask, GaugeOp.store 5),
                     (TaskId.webTask 0, GaugeOp.load)]
     (by decide) TaskId.sensorTask 5 (by decide)⟩

theorem gaugeAfter_foldl_cases :
    ∀ (l : List (TaskId × GaugeOp)) (g0 : Nat),
      l.foldl (fun g s => match s.2 with
                          | GaugeOp.store v => v
                          | _ => g) g0 = g0
      ∨ ∃ t, (t, GaugeOp.store
                (l.foldl (fun g s => match s.2 with
                                     | GaugeOp.store v => v
                                     | _ => g) g0)) ∈ l := by
  intro l
  induction l with
  | nil => intro g0; left; rfl
  | cons s rest ih =>
      intro g0
      rcases s with ⟨t, op⟩
      cases op with
      | store v =>
          rcases ih v with hsame | ⟨t2, hmem⟩
          · right
            refine ⟨t, ?_⟩
            simp only [List.foldl_cons]
            rw [hsame]
            exact List.mem_cons_self _ _
          · right
            exact ⟨t2, List.mem_cons_of_mem _ hmem⟩
      | load =>
          rcases ih g0 with hsame | ⟨t2, hmem⟩
          · left; exact hsame
          · right; exact ⟨t2, List.mem_cons_of_mem _ hmem⟩
      | tau =>
          rcases ih g0 with hsame | ⟨t2, hmem⟩
          · left; exact hsame
          · right; exact ⟨t2, List.mem_cons_of_mem _ hmem⟩

/-- C5: in every well-formed interleaving of the tasks, the value an
atomic load observes at any point of the trace — the gauge value after
the prefix executed so far — is either the initial default zero or the
exact value of some store completed earlier in the trace; stores are
single steps, so no torn value can be observed. -/
theorem C5_gauge_reads_published (tr : List (TaskId × GaugeOp))
    (h : wellFormed tr = true) (i : Nat) :
    gaugeAfter (tr.take i) = 0
    ∨ ∃ t, (t, GaugeOp.store (gaugeAfter (tr.take i))) ∈ tr.take i := by
  have hwf := h
  simpa [gaugeAfter] using gaugeAfter_foldl_cases (tr.take i) 0

theorem C5_gauge_reads_published_witness :
    wellFormed [(TaskId.sensorTask, GaugeOp.store 9),
                (TaskId.webTask 0, GaugeOp.load)] = true
    ∧ (gaugeAfter ([(TaskId.sensorTask, GaugeOp.store 9),
                    (TaskId.webTask 0, GaugeOp.load)].take 2) = 0
       ∨ ∃ t, (t, GaugeOp.store
                 (gaugeAfter ([(TaskId.sensorTask, GaugeOp.store 9),
                               (TaskId.webTask 0, GaugeOp.load)].take 2)))
              ∈ [(TaskId.sensorTask, GaugeOp.store 9),
                 (TaskId.webTask 0, GaugeOp.load)].take 2) :=
  ⟨by decide, C5_gauge_reads_published _ (by decide) 2⟩

theorem orderScan_append (a b : List BootEvent) :
    ∀ s, orderScan s (a ++ b)
      = (orderScan s a).bind (fun s2 => orderScan s2 b) := by
  induction a with
  | nil => intro s; simp [orderScan]
  | cons e rest ih =>
      intro s
      simp only [List.cons_append, orderScan]
      cases orderStep s e with
      | none => rfl
      | some s2 => exact ih s2

theorem orderScan_joinLoop :
    ∀ (l : List Bool) (t : List BootEvent) (sj sc : Bool) (n : Nat),
      joinLoopTrace l = some t →
      orderScan (sj, sc, n) t = some (true, sc, n) := by
  intro l
  induction l with
  | nil => intro t sj sc n h; simp [joinLoopTrace] at h
  | cons b rest ih =>
      intro t sj sc n h
      cases b with
      | true =>
          simp [joinLoopTrace] at h
          subst h
          simp [orderScan, orderStep]
      | false =>
          simp [joinLoopTrace, Option.map_eq_some'] at h
          rcases h with ⟨t2, ht2, rfl⟩
          simp only [orderScan, orderStep, Bool.or_false]
          exact ih t2 sj sc n ht2

theorem orderScan_configLoop :
    ∀ (l : List Bool) (t : List BootEvent) (sj sc : Bool) (n : Nat),
      configLoopTrace l = some t →
      orderScan (sj, sc, n) t = some (sj, true, n) := by
  intro l
  induction l with
  | nil => intro t sj sc n h; simp [configLoopTrace] at h
  | cons b rest ih =>
      intro t sj sc n h
      cases b with
      | true =>
          simp [configLoopTrace] at h
          subst h
          simp [orderScan, orderStep]
      | false =>
          simp [configLoopTrace, Option.map_eq_some'] at h
          rcases h with ⟨t2, ht2, rfl⟩
          simp only [orderScan, orderStep, Bool.or_false]
          exact ih t2 sj sc n ht2

/-- C3: in every completed run of the startup sequence, the ordering
check passes: every web-task spawn happens only after both a successful
join attempt (the exit of the join loop) and a successful configuration
poll (the exit of the wait loop), and the LED indicator comes only
after the whole pool of `WEB_TASK_POOL_SIZE` tasks has been spawned. -/
theorem C3_pool_spawned_after_bringup (jr cp : List Bool)
    (t : List BootEvent) (h : mainTrace jr cp = some t) :
    orderScan (false, false, 0) t = some (true, true, WEB_TASK_POOL_SIZE) := by
  unfold mainTrace at h
  cases hj : joinLoopTrace jr with
  | none => rw [hj] at h; exact absurd h (by simp)
  | some jt =>
      rw [hj] at h
      cases hc : configLoopTrace cp with
      | none => rw [hc] at h; exact absurd h (by simp)
      | some ct =>
          rw [hc] at h
          simp only [Option.some.injEq] at h
          subst h
          rw [show ([BootEvent.spawnSensorTask, BootEvent.spawnWifiTask,
                     BootEvent.spawnNetTask]
                    ++ jt ++ ct ++ [BootEvent.logStartingServer]
                    ++ (List.range WEB_TASK_POOL_SIZE).map BootEvent.spawnWebTask
                    ++ [BootEvent.ledOn])
                  = [BootEvent.spawnSensorTask, BootEvent.spawnWifiTask,
                     BootEvent.spawnNetTask]
                    ++ (jt ++ (ct ++ ([BootEvent.logStartingServer]
                        ++ ((List.range WEB_TASK_POOL_SIZE).map BootEvent.spawnWebTask
                            ++ [BootEvent.ledOn]))))
                from by simp [List.append_assoc]]
          rw [orderScan_append]
          rw [show orderScan (false, false, 0)
                [BootEvent.spawnSensorTask, BootEvent.spawnWifiTask,
                 BootEvent.spawnNetTask] = some (false, false, 0) from rfl]
          rw [Option.some_bind]
          rw [orderScan_append, orderScan_joinLoop jr jt false false 0 hj,
              Option.some_bind]
          rw [orderScan_append, orderScan_configLoop cp ct true false 0 hc,
              Option.some_bind]
          decide

theorem C3_pool_spawned_after_bringup_witness :
    mainTrace [true] [true]
      = some [BootEvent.spawnSensorTask, BootEvent.spawnWifiTask,
              BootEvent.spawnNetTask, BootEvent.joinAttempt true,
              BootEvent.logConnected, BootEvent.configPoll true,
              BootEvent.logStartingServer,
              BootEvent.spawnWebTask 0, BootEvent.spawnWebTask 1,
              BootEvent.spawnWebTask 2, BootEvent.spawnWebTask 3,
              BootEvent.spawnWebTask 4, BootEvent.spawnWebTask 5,
              BootEvent.spawnWebTask 6, BootEvent.spawnWebTask 7,
              BootEvent.ledOn]
    ∧ orderScan (false, false, 0)
        [BootEvent.spawnSensorTask, BootEvent.spawnWifiTask,
         BootEvent.spawnNetTask, BootEvent.joinAttempt true,
         BootEvent.logConnected, BootEvent.configPoll true,
         BootEvent.logStartingServer,
         BootEvent.spawnWebTask 0, BootEvent.spawnWebTask 1,
         BootEvent.spawnWebTask 2, BootEvent.spawnWebTask 3,
         BootEvent.spawnWebTask 4, BootEvent.spawnWebTask 5,
         BootEvent.spawnWebTask 6, BootEvent.spawnWebTask 7,
         BootEvent.ledOn]
      = some (true, true, WEB_TASK_POOL_SIZE) :=
  ⟨by decide, C3_pool_spawned_after_bringup [true] [true] _ (by decide)⟩

end Picow
